import Mathlib

/-!
Verification of the similar-notes embedding store.

This development gives a shallow embedding of the core of the repository:

* `db.ts` (`DatabaseManager`): `loadDatabase`, `saveDatabase`, `saveEmbedding`,
  `getEmbedding`, `getAllEmbeddings`, `deleteEmbedding`, `findSimilarNotes`;
* `embedding.ts` (`EmbeddingManager`): `generateEmbedding`,
  `calculateCosineSimilarity`;
* the plugin entry point (`SimilarNotesPlugin`): `updateNoteEmbedding`.

Modelling choices, documented once here:

* JS numbers are idealised as exact rationals.  The one place where the
  non-finite JS values matter (division by a zero vector norm in
  `calculateCosineSimilarity`) is modelled explicitly by `JSNum`, which is a
  rational together with the JS special values `NaN` and signed infinity, and
  by `jsDiv`, which mirrors JS division by zero (`0/0 = NaN`, `x/0 = ±∞`).
* `Math.sqrt` is a host-library function; it is passed in as a parameter
  `sqrt : ℚ → ℚ`.  Theorems that need facts about it take them as hypotheses.
* The persistence adapter (`this.adapter`) is modelled by `FsState`: the
  current content of the embeddings file (`none` when absent, otherwise a
  blob that is either a well-formed serialisation of a mapping or corrupt)
  plus a flag for a storage layer whose reads fail.  `adapterRead` can fail
  (file missing, storage unavailable) exactly where `adapter.read` rejects;
  `adapter.write` is modelled as always succeeding, which is all the claims
  need.
* `async`/`await` interleaving is modelled for the mutation path by an
  explicit two-operation scheduler (`runSchedule`): each in-flight
  `saveEmbedding` is split at its `await` points into a load step and a
  modify-save step, and a schedule says which operation performs its next
  step.  This captures exactly the lost-update hazard of the unsynchronised
  load-modify-save cycle in `db.ts`.
* JS string operations used by the code are modelled structurally over the
  character list of the string: `jsSlice` is `String.prototype.slice(0, n)`,
  `jsIsBlank` is `!text || text.trim().length === 0`, `containsSubstr` is
  `String.prototype.includes`, `splitChars`/`replaceFirstChars` give
  `split('/')` and the first-occurrence-only `replace('.md', '')`.
* Provider calls are counted: `generateEmbedding` and `updateNoteEmbedding`
  return, alongside their result, the number of calls made to the external
  embedding provider, so that the spec's "no provider call" / "exactly one
  provider call" sentences are statable.
* Errors thrown by the JS code are `Except` errors carrying the thrown
  `Error`'s message string, matching the fact that the source throws plain
  `new Error(message)` values and inspects only `error.message`.
-/

/-- Model of JS `String.prototype.slice(0, n)` (used as `text.slice(0, 8000)`). -/
def jsSlice (s : String) (n : Nat) : String := String.mk (s.data.take n)

/-- Model of the guard `!text || text.trim().length === 0` in
`EmbeddingManager.generateEmbedding`: the text has no non-whitespace character. -/
def jsIsBlank (s : String) : Bool := s.data.all (fun c => c.isWhitespace)

/-- Does `pat` occur as a contiguous run inside `l`?  Helper for `containsSubstr`. -/
def infixAt (pat : List Char) : List Char → Bool
  | [] => pat.isEmpty
  | c :: rest => pat.isPrefixOf (c :: rest) || infixAt pat rest

/-- Model of JS `String.prototype.includes` (used as
`error.message.includes('API key not configured')`). -/
def containsSubstr (s pat : String) : Bool := infixAt pat.data s.data

/-- Model of JS `String.prototype.split(sep)` over character lists. -/
def splitChars (sep : Char) : List Char → List (List Char)
  | [] => [[]]
  | c :: rest =>
    match splitChars sep rest with
    | [] => [[c]]
    | g :: gs => if c = sep then [] :: g :: gs else (c :: g) :: gs

/-- Model of JS `String.prototype.replace(pat, '')`, which replaces only the
first occurrence of `pat`. -/
def replaceFirstChars (pat : List Char) : List Char → List Char
  | [] => []
  | c :: rest =>
    if pat.isPrefixOf (c :: rest) then (c :: rest).drop pat.length
    else c :: replaceFirstChars pat rest

/-- The title computation in `findSimilarNotes`:
`path.split('/').pop()?.replace('.md', '') || path`. -/
def titleOf (path : String) : String :=
  let segs := splitChars '/' path.data
  let lastSeg := segs.getLastD []
  let t := replaceFirstChars (".md").data lastSeg
  if t.isEmpty then path else String.mk t

/-- A JS number as observed by this code: a finite value (idealised as an
exact rational), `NaN`, or a signed infinity. -/
inductive JSNum where
  | num (q : ℚ)
  | nan
  | inf (positive : Bool)
deriving DecidableEq

/-- JS division, including its behaviour on a zero divisor:
`0/0` is `NaN` and `x/0` for nonzero `x` is a signed infinity. -/
def jsDiv (a b : ℚ) : JSNum :=
  if b = 0 then (if a = 0 then JSNum.nan else JSNum.inf (decide (0 < a)))
  else JSNum.num (a / b)

/-- JS subtraction on `JSNum` (the sort comparator `b.similarity - a.similarity`). -/
def jsSub : JSNum → JSNum → JSNum
  | JSNum.nan, _ => JSNum.nan
  | _, JSNum.nan => JSNum.nan
  | JSNum.num a, JSNum.num b => JSNum.num (a - b)
  | JSNum.inf p, JSNum.num _ => JSNum.inf p
  | JSNum.num _, JSNum.inf p => JSNum.inf (!p)
  | JSNum.inf p, JSNum.inf q => if p = q then JSNum.nan else JSNum.inf p

/-- Is this JS number strictly greater than zero?  (`NaN` compares false.) -/
def jsPos : JSNum → Bool
  | JSNum.num q => decide (0 < q)
  | JSNum.nan => false
  | JSNum.inf p => p

/-- The JS comparison `s >= m` for a finite threshold `m`
(`NaN >= m` is false, `Infinity >= m` is true). -/
def jsGe : JSNum → ℚ → Bool
  | JSNum.num q, m => decide (m ≤ q)
  | JSNum.nan, _ => false
  | JSNum.inf p, _ => p

/-- Descending-order comparison between two finite JS numbers; false when
either side is not finite. -/
def jsGeB : JSNum → JSNum → Bool
  | JSNum.num p, JSNum.num q => decide (q ≤ p)
  | _, _ => false

/-- Is this JS number finite? -/
def isNum : JSNum → Bool
  | JSNum.num _ => true
  | _ => false

/-- The `EmbeddingData` record persisted per document key (`db.ts`). -/
structure EmbeddingData where
  embedding : List ℚ
  last_updated : String
  file_mtime : Int
deriving DecidableEq

/-- The `EmbeddingsDatabase` mapping, as an association list in object-key
insertion order (mirroring `Object.entries` iteration order). -/
abbrev EmbDb := List (String × EmbeddingData)

/-- Key lookup in the mapping (`db[filePath]`). -/
def dbLookup : EmbDb → String → Option EmbeddingData
  | [], _ => none
  | (k, v) :: rest, key => if k = key then some v else dbLookup rest key

/-- Key assignment in the mapping (`db[filePath] = value`): replaces the value
in place when the key is present, appends otherwise. -/
def dbInsert : EmbDb → String → EmbeddingData → EmbDb
  | [], key, v => [(key, v)]
  | (k, w) :: rest, key, v =>
    if k = key then (key, v) :: rest else (k, w) :: dbInsert rest key v

/-- Key removal from the mapping (`delete db[filePath]`). -/
def dbErase : EmbDb → String → EmbDb
  | [], _ => []
  | (k, w) :: rest, key => if k = key then rest else (k, w) :: dbErase rest key

/-- Content of the durable embeddings file: a well-formed serialisation of a
mapping, or a corrupt blob that `JSON.parse` rejects. -/
inductive Blob where
  | wellFormed (db : EmbDb)
  | corrupt
deriving DecidableEq

/-- Ways `adapter.read` can reject. -/
inductive StorageErr where
  | notFound
  | ioError
deriving DecidableEq

/-- State of the persistence adapter: the embeddings file's content (if any)
and whether the storage layer currently fails reads. -/
structure FsState where
  file : Option Blob
  readFails : Bool
deriving DecidableEq

/-- Model of `this.adapter.read(this.dbPath)`: rejects when storage is
unavailable or the file is absent, otherwise yields the blob. -/
def adapterRead (fs : FsState) : Except StorageErr Blob :=
  if fs.readFails then Except.error StorageErr.ioError
  else
    match fs.file with
    | some b => Except.ok b
    | none => Except.error StorageErr.notFound

/-- Model of `JSON.parse` on the blob: throws on a corrupt blob. -/
def jsonParse : Blob → Except Unit EmbDb
  | Blob.wellFormed db => Except.ok db
  | Blob.corrupt => Except.error ()

/-- `DatabaseManager.loadDatabase`: try to read and parse; any error (read
failure or parse failure) is caught and yields the empty mapping. -/
def loadDatabase (fs : FsState) : EmbDb :=
  match adapterRead fs with
  | Except.ok b =>
    match jsonParse b with
    | Except.ok db => db
    | Except.error _ => []
  | Except.error _ => []

/-- `DatabaseManager.saveDatabase`: serialise the mapping and write it.  (The
update-callback notification has no effect on the store and is omitted.) -/
def saveDatabase (fs : FsState) (db : EmbDb) : FsState :=
  { fs with file := some (Blob.wellFormed db) }

/-- `DatabaseManager.saveEmbedding`: load the mapping, assign the record for
the key, save the whole mapping.  `nowIso` is `new Date().toISOString()`. -/
def saveEmbedding (fs : FsState) (filePath : String) (embedding : List ℚ)
    (nowIso : String) (file_mtime : Int) : FsState :=
  saveDatabase fs
    (dbInsert (loadDatabase fs) filePath
      { embedding := embedding, last_updated := nowIso, file_mtime := file_mtime })

/-- `DatabaseManager.getEmbedding`: `db[filePath] || null`. -/
def getEmbedding (fs : FsState) (filePath : String) : Option EmbeddingData :=
  dbLookup (loadDatabase fs) filePath

/-- `DatabaseManager.getAllEmbeddings`. -/
def getAllEmbeddings (fs : FsState) : EmbDb := loadDatabase fs

/-- `DatabaseManager.deleteEmbedding`: load, `delete db[filePath]`, save. -/
def deleteEmbedding (fs : FsState) (filePath : String) : FsState :=
  saveDatabase fs (dbErase (loadDatabase fs) filePath)

/-- Failure modes of the external OpenAI embeddings call, as distinguished by
the `error.status` checks in `generateEmbedding` (`401`, `429`, `500`, other
with the thrown error's message). -/
inductive ProvErr where
  | unauthorized
  | rateLimited
  | serverError
  | other (msg : String)
deriving DecidableEq

/-- The message of the typed `Error` that `generateEmbedding` throws for each
provider failure mode. -/
def embMsg : ProvErr → String
  | ProvErr.unauthorized => "Invalid OpenAI API key. Please check your settings."
  | ProvErr.rateLimited => "OpenAI API rate limit exceeded. Please try again later."
  | ProvErr.serverError => "OpenAI server error. Please try again later."
  | ProvErr.other m =>
    "Error generating embedding: " ++ (if m = "" then "Unknown error" else m)

/-- Errors thrown by the modelled JS code: the thrown `Error`'s message. -/
abbrev JsError := String

/-- State of the `EmbeddingManager`: whether an OpenAI client was initialised
(`this.openai !== null`) and the external provider itself, an opaque function
from the (truncated) input text to a vector or a failure. -/
structure EmbedderState where
  configured : Bool
  provider : String → Except ProvErr (List ℚ)

/-- `EmbeddingManager.generateEmbedding`.  The second component counts calls
made to the external provider (0 when rejected before the call, 1 after it). -/
def generateEmbedding (em : EmbedderState) (text : String) :
    Except JsError (List ℚ) × Nat :=
  if em.configured = false then
    (Except.error ("OpenAI API key not configured. Please add your key in the plugin settings."), 0)
  else if jsIsBlank text then
    (Except.error ("Cannot generate embedding for empty text"), 0)
  else
    match em.provider (jsSlice text 8000) with
    | Except.ok v => (Except.ok v, 1)
    | Except.error e => (Except.error (embMsg e), 1)

/-- Sum of squares of a vector (`vec.reduce((sum, a) => sum + a * a, 0)`),
the quantity under `Math.sqrt` in the norm computation. -/
def sumSq (v : List ℚ) : ℚ := (v.map fun a => a * a).sum

/-- Dot product (`vec1.reduce((sum, a, i) => sum + a * vec2[i], 0)`; the
length guard has already ensured the index accesses are in bounds). -/
def dotProd (v1 v2 : List ℚ) : ℚ := (List.zipWith (fun a b => a * b) v1 v2).sum

/-- `EmbeddingManager.calculateCosineSimilarity`, parametrised by the host's
`Math.sqrt`.  Throws on a length mismatch; otherwise divides the dot product
by the product of the norms with JS division semantics (no zero-norm guard). -/
def calculateCosineSimilarity (sqrt : ℚ → ℚ) (vec1 vec2 : List ℚ) :
    Except JsError JSNum :=
  if vec1.length ≠ vec2.length then
    Except.error ("Wektory muszą mieć tę samą długość")
  else
    Except.ok (jsDiv (dotProd vec1 vec2) (sqrt (sumSq vec1) * sqrt (sumSq vec2)))

/-- A query result (`SimilarNote` in `db.ts`). -/
structure SimilarNote where
  path : String
  title : String
  similarity : JSNum
deriving DecidableEq

/-- The candidate-collection loop of `findSimilarNotes`: skip the query key,
compute the similarity (a thrown similarity error skips the candidate), keep
candidates passing the `similarity >= minSimilarity` test, in mapping order. -/
def collectSimilarities (sqrt : ℚ → ℚ) (minSimilarity : ℚ) (notePath : String)
    (queryVec : List ℚ) : EmbDb → List SimilarNote
  | [] => []
  | (path, data) :: rest =>
    let tail := collectSimilarities sqrt minSimilarity notePath queryVec rest
    if path = notePath then tail
    else
      match calculateCosineSimilarity sqrt queryVec data.embedding with
      | Except.ok s =>
        if jsGe s minSimilarity then
          { path := path, title := titleOf path, similarity := s } :: tail
        else tail
      | Except.error _ => tail

/-- The placement decision of `Array.prototype.sort` under the comparator
`(a, b) => b.similarity - a.similarity`: `a` may precede `b` unless the
comparator is positive. -/
def sortKeep (a b : SimilarNote) : Bool := !(jsPos (jsSub b.similarity a.similarity))

/-- Insertion step of the comparator-driven sort model. -/
def insertSorted (a : SimilarNote) : List SimilarNote → List SimilarNote
  | [] => [a]
  | b :: rest => if sortKeep a b then a :: b :: rest else b :: insertSorted a rest

/-- Model of `.sort((a, b) => b.similarity - a.similarity)` as an insertion
sort driven by the comparator. -/
def sortSimilar : List SimilarNote → List SimilarNote
  | [] => []
  | a :: rest => insertSorted a (sortSimilar rest)

/-- A markdown file as seen through the vault (`TFile`): its content, its
`stat.mtime`, and its extension. -/
structure VFile where
  content : String
  mtime : Int
  extension : String
deriving DecidableEq

/-- The collaborators `findSimilarNotes` and `updateNoteEmbedding` touch: the
vault (`getAbstractFileByPath`, `none` for a missing path or a folder), the
embedding manager state, and the host's `Math.sqrt`. -/
structure PluginCtx where
  vault : String → Option VFile
  embedder : EmbedderState
  sqrt : ℚ → ℚ

/-- `DatabaseManager.findSimilarNotes`.  When the query document has no
stored embedding it runs the bootstrap branch: generate and save an embedding
for the query document when possible, catch and discard any error, and return
the empty list either way.  Otherwise it scans the whole mapping, filters by
the threshold, sorts descending, and truncates.  `nowIso` and `nowMs` are the
clock reads inside the bootstrap branch. -/
def findSimilarNotes (ctx : PluginCtx) (fs : FsState) (nowIso : String)
    (nowMs : Int) (notePath : String) (maxResults : Nat) (minSimilarity : ℚ) :
    Except JsError (List SimilarNote) × FsState :=
  match getEmbedding fs notePath with
  | none =>
    (match ctx.vault notePath with
     | some file =>
       if file.extension = "md" then
         match generateEmbedding ctx.embedder file.content with
         | (Except.ok emb, _) => (Except.ok [], saveEmbedding fs notePath emb nowIso nowMs)
         | (Except.error _, _) => (Except.ok [], fs)
       else (Except.ok [], fs)
     | none => (Except.ok [], fs))
  | some currentEmbedding =>
    (Except.ok
      ((sortSimilar
        (collectSimilarities ctx.sqrt minSimilarity notePath
          currentEmbedding.embedding (getAllEmbeddings fs))).take maxResults),
     fs)

/-- `SimilarNotesPlugin.updateNoteEmbedding`.  The third component counts
provider calls.  The catch block swallows (returns `false` for) exactly the
errors whose message contains `'API key not configured'` and rethrows the
rest. -/
def updateNoteEmbedding (ctx : PluginCtx) (fs : FsState) (nowIso : String)
    (filePath : String) (forceUpdate : Bool) :
    Except JsError Bool × FsState × Nat :=
  match ctx.vault filePath with
  | none => (Except.ok false, fs, 0)
  | some file =>
    let skip : Bool :=
      if forceUpdate then false
      else
        match getEmbedding fs filePath with
        | some ed => decide (file.mtime ≤ ed.file_mtime)
        | none => false
    if skip then (Except.ok false, fs, 0)
    else
      match generateEmbedding ctx.embedder file.content with
      | (Except.ok emb, n) =>
        (Except.ok true, saveEmbedding fs filePath emb nowIso file.mtime, n)
      | (Except.error msg, n) =>
        if containsSubstr msg ("API key not configured") then (Except.ok false, fs, n)
        else (Except.error msg, fs, n)

/-- Arguments of one `saveEmbedding` call, for the interleaving model. -/
structure PutCall where
  key : String
  embedding : List ℚ
  file_mtime : Int
  nowIso : String
deriving DecidableEq

/-- Progress of one in-flight `saveEmbedding`: the mapping snapshot it loaded
(if its load step has run) and whether its save step has run. -/
structure OpState where
  snapshot : Option EmbDb
  finished : Bool
deriving DecidableEq

/-- One step of an in-flight `saveEmbedding` call, split at its `await`
points: first `const db = await this.loadDatabase()`, then the mutation of
the local snapshot followed by `await this.saveDatabase(db)`.  A finished
operation steps to itself. -/
def putStep (call : PutCall) (fs : FsState) (st : OpState) : FsState × OpState :=
  match st.snapshot, st.finished with
  | none, _ => (fs, { snapshot := some (loadDatabase fs), finished := false })
  | some db, false =>
    (saveDatabase fs
      (dbInsert db call.key
        { embedding := call.embedding, last_updated := call.nowIso,
          file_mtime := call.file_mtime }),
     { snapshot := some db, finished := true })
  | some db, true => (fs, { snapshot := some db, finished := true })

/-- Joint state of the store and two in-flight `saveEmbedding` calls. -/
structure TwoPutRun where
  fs : FsState
  opA : OpState
  opB : OpState
deriving DecidableEq

/-- Run two concurrent `saveEmbedding` calls under a schedule: `false` means
operation A performs its next step, `true` means operation B does. -/
def runSchedule (callA callB : PutCall) : List Bool → TwoPutRun → TwoPutRun
  | [], st => st
  | false :: rest, st =>
    let p := putStep callA st.fs st.opA
    runSchedule callA callB rest { fs := p.1, opA := p.2, opB := st.opB }
  | true :: rest, st =>
    let p := putStep callB st.fs st.opB
    runSchedule callA callB rest { fs := p.1, opA := st.opA, opB := p.2 }


deriving instance DecidableEq for Except

/-! Concrete fixtures used by the witnesses. -/

/-- A concrete stand-in for the host's `Math.sqrt`, satisfying the sign
properties the theorems assume of it. -/
def sqrtToy : ℚ → ℚ := fun q => if 0 < q then 1 else 0

/-- A concrete markdown file. -/
def fileQ : VFile := { content := "hello", mtime := 100, extension := "md" }

/-- A vault containing exactly the markdown file `q.md`. -/
def vaultToy : String → Option VFile :=
  fun p => if p = "q.md" then some fileQ else none

/-- A configured embedder whose provider always succeeds with `[1, 0]`. -/
def embToy : EmbedderState :=
  { configured := true, provider := fun _ => Except.ok [1, 0] }

/-- The collaborators for the concrete runs. -/
def ctxToy : PluginCtx := { vault := vaultToy, embedder := embToy, sqrt := sqrtToy }

/-- A concrete three-entry mapping: the query note and two candidates. -/
def dbW : EmbDb :=
  [("q.md", { embedding := [2, 0], last_updated := "t0", file_mtime := 5 }),
   ("b.md", { embedding := [3, 0], last_updated := "t1", file_mtime := 5 }),
   ("c.md", { embedding := [1, 0], last_updated := "t2", file_mtime := 5 })]

/-- Healthy storage holding `dbW`. -/
def fsW : FsState := { file := some (Blob.wellFormed dbW), readFails := false }

/-- The result list of the concrete query run on `fsW`. -/
def resultsW : List SimilarNote :=
  [{ path := "b.md", title := "b", similarity := JSNum.num 6 },
   { path := "c.md", title := "c", similarity := JSNum.num 2 }]


/-- A context whose provider always fails with a rate-limit error. -/
def ctxFail : PluginCtx :=
  { vault := vaultToy,
    embedder := { configured := true,
                  provider := fun _ => Except.error ProvErr.rateLimited },
    sqrt := sqrtToy }

/-- A context whose provider fails with an unknown error whose message
happens to contain the configuration substring that the catch block in
`updateNoteEmbedding` swallows. -/
def ctxSneaky : PluginCtx :=
  { vault := vaultToy,
    embedder := { configured := true,
                  provider := fun _ =>
                    Except.error (ProvErr.other "API key not configured") },
    sqrt := sqrtToy }

/-- Healthy storage holding the empty mapping. -/
def fsEmpty : FsState := { file := some (Blob.wellFormed []), readFails := false }

/-- A concrete record for the storage-failure scenarios. -/
def dEntry : EmbeddingData := { embedding := [1], last_updated := "t", file_mtime := 1 }

/-- Storage whose blob is intact and non-empty but whose reads currently fail. -/
def fsBadRead : FsState :=
  { file := some (Blob.wellFormed [("a.md", dEntry)]), readFails := true }

/-- Storage holding a corrupt blob. -/
def fsCorrupt : FsState := { file := some Blob.corrupt, readFails := false }

/-- First concurrent `saveEmbedding` call of the lost-update run. -/
def putA : PutCall := { key := "a.md", embedding := [1], file_mtime := 1, nowIso := "t1" }

/-- Second concurrent `saveEmbedding` call of the lost-update run. -/
def putB : PutCall := { key := "b.md", embedding := [2], file_mtime := 2, nowIso := "t2" }

/-- The lost-update interleaving: A loads, B loads, B saves, A saves. -/
def lostRun : TwoPutRun :=
  runSchedule putA putB [false, true, true, false]
    { fs := fsEmpty,
      opA := { snapshot := none, finished := false },
      opB := { snapshot := none, finished := false } }

/-- Storage holding a current record for `q.md` (its `file_mtime` equals the
vault file's `mtime`). -/
def fsQcur : FsState :=
  { file := some (Blob.wellFormed
      [("q.md", { embedding := [1, 0], last_updated := "t", file_mtime := 100 })]),
    readFails := false }

/-! Helper lemmas about the similarity computation. -/

theorem sumSq_nonneg (v : List ℚ) : 0 ≤ sumSq v := by
  refine List.sum_nonneg ?_
  intro x hx
  rcases List.mem_map.mp hx with ⟨a, _, rfl⟩
  exact mul_self_nonneg a

theorem eq_zero_of_sumSq_eq_zero {v : List ℚ} (h : sumSq v = 0) :
    ∀ x ∈ v, x = 0 := by
  induction v with
  | nil => intro x hx; cases hx
  | cons a rest ih =>
    have hrest : 0 ≤ sumSq rest := sumSq_nonneg rest
    have ha : 0 ≤ a * a := mul_self_nonneg a
    have hsum : a * a + sumSq rest = 0 := by
      simpa [sumSq] using h
    have ha0 : a * a = 0 := by linarith
    have hr0 : sumSq rest = 0 := by linarith
    intro x hx
    rcases List.mem_cons.mp hx with rfl | hx'
    · exact mul_self_eq_zero.mp ha0
    · exact ih hr0 x hx'

theorem dotProd_eq_zero_left {v1 : List ℚ} (h : ∀ x ∈ v1, x = 0)
    (v2 : List ℚ) : dotProd v1 v2 = 0 := by
  induction v1 generalizing v2 with
  | nil => simp [dotProd]
  | cons a rest ih =>
    cases v2 with
    | nil => simp [dotProd]
    | cons b rest2 =>
      have ha : a = 0 := h a (List.mem_cons_self a rest)
      have ih' := ih (fun x hx => h x (List.mem_cons_of_mem a hx)) rest2
      simp [dotProd, List.zipWith_cons_cons, ha] at ih' ⊢
      simpa [dotProd] using ih'

theorem dotProd_eq_zero_right (v1 : List ℚ) {v2 : List ℚ}
    (h : ∀ x ∈ v2, x = 0) : dotProd v1 v2 = 0 := by
  induction v1 generalizing v2 with
  | nil => simp [dotProd]
  | cons a rest ih =>
    cases v2 with
    | nil => simp [dotProd]
    | cons b rest2 =>
      have hb : b = 0 := h b (List.mem_cons_self b rest2)
      have ih' := @ih rest2 (fun x hx => h x (List.mem_cons_of_mem b hx))
      simp [dotProd, List.zipWith_cons_cons, hb] at ih' ⊢
      simpa [dotProd] using ih'

/-- With a square root that vanishes only at zero (on nonnegative inputs),
the similarity computation can never produce an infinity: a zero denominator
forces a zero-norm vector, hence a zero dot product, hence `NaN`. -/
theorem cos_ok_not_inf {sqrt : ℚ → ℚ}
    (hsq : ∀ q, 0 ≤ q → sqrt q = 0 → q = 0) {v1 v2 : List ℚ} {b : Bool}
    (h : calculateCosineSimilarity sqrt v1 v2 = Except.ok (JSNum.inf b)) :
    False := by
  unfold calculateCosineSimilarity at h
  split at h
  · cases h
  · simp only [Except.ok.injEq] at h
    unfold jsDiv at h
    split at h
    · split at h
      · cases h
      · rename_i hden hdot
        rcases mul_eq_zero.mp hden with h1 | h1
        · have hz : sumSq v1 = 0 := hsq _ (sumSq_nonneg v1) h1
          exact hdot (dotProd_eq_zero_left (eq_zero_of_sumSq_eq_zero hz) v2)
        · have hz : sumSq v2 = 0 := hsq _ (sumSq_nonneg v2) h1
          exact hdot (dotProd_eq_zero_right v1 (eq_zero_of_sumSq_eq_zero hz))
    · cases h

/-- Inversion for membership in the candidate-collection loop. -/
theorem mem_collectSimilarities {sqrt : ℚ → ℚ} {m : ℚ} {np : String}
    {qv : List ℚ} {db : EmbDb} {x : SimilarNote}
    (h : x ∈ collectSimilarities sqrt m np qv db) :
    x.path ≠ np ∧ jsGe x.similarity m = true ∧
      ∃ d : EmbeddingData,
        calculateCosineSimilarity sqrt qv d.embedding = Except.ok x.similarity := by
  induction db with
  | nil => cases h
  | cons entry rest ih =>
    obtain ⟨path, data⟩ := entry
    unfold collectSimilarities at h
    by_cases hp : path = np
    · simp only [hp, if_pos rfl] at h
      exact ih h
    · simp only [if_neg hp] at h
      split at h
      · rename_i s heq
        split at h
        · rename_i hge
          rcases List.mem_cons.mp h with rfl | h2
          · exact ⟨hp, hge, data, heq⟩
          · exact ih h2
        · exact ih h
      · exact ih h

theorem mem_insertSorted {a x : SimilarNote} {l : List SimilarNote}
    (h : x ∈ insertSorted a l) : x = a ∨ x ∈ l := by
  induction l with
  | nil => simpa [insertSorted] using h
  | cons b rest ih =>
    unfold insertSorted at h
    split at h
    · rcases List.mem_cons.mp h with rfl | h2
      · exact Or.inl rfl
      · exact Or.inr h2
    · rcases List.mem_cons.mp h with rfl | h2
      · exact Or.inr (List.mem_cons_self x rest)
      · rcases ih h2 with rfl | h3
        · exact Or.inl rfl
        · exact Or.inr (List.mem_cons_of_mem b h3)

theorem mem_sortSimilar {x : SimilarNote} {l : List SimilarNote}
    (h : x ∈ sortSimilar l) : x ∈ l := by
  induction l with
  | nil => cases h
  | cons a rest ih =>
    unfold sortSimilar at h
    rcases mem_insertSorted h with rfl | h'
    · simp
    · exact List.mem_cons_of_mem a (ih h')

/-! Sortedness of the comparator-driven sort, on finite similarities. -/

theorem sortKeep_eq_jsGeB {a b : SimilarNote} (ha : isNum a.similarity = true)
    (hb : isNum b.similarity = true) :
    sortKeep a b = jsGeB a.similarity b.similarity := by
  rcases a with ⟨pa, ta, sa⟩
  rcases b with ⟨pb, tb, sb⟩
  cases sa with
  | num p =>
    cases sb with
    | num q =>
      simp only [sortKeep, jsSub, jsPos, jsGeB]
      by_cases h : q ≤ p
      · have h2 : ¬(0 < q - p) := by linarith
        simp [h, h2]
      · have h2 : 0 < q - p := by linarith
        simp [h, h2]
    | nan => simp [isNum] at hb
    | inf b2 => simp [isNum] at hb
  | nan => simp [isNum] at ha
  | inf b2 => simp [isNum] at ha

theorem jsGeB_total {x y : JSNum} (hx : isNum x = true) (hy : isNum y = true)
    (h : jsGeB x y = false) : jsGeB y x = true := by
  cases x with
  | num p =>
    cases y with
    | num q =>
      simp only [jsGeB, decide_eq_false_iff_not] at h
      simp only [jsGeB, decide_eq_true_eq]
      linarith
    | nan => simp [isNum] at hy
    | inf b2 => simp [isNum] at hy
  | nan => simp [isNum] at hx
  | inf b2 => simp [isNum] at hx

theorem jsGeB_trans {x y z : JSNum} (h1 : jsGeB x y = true)
    (h2 : jsGeB y z = true) : jsGeB x z = true := by
  cases x <;> cases y <;> cases z <;> simp_all [jsGeB]
  linarith

theorem insertSorted_pairwise {a : SimilarNote} {l : List SimilarNote}
    (ha : isNum a.similarity = true)
    (hl : ∀ x ∈ l, isNum x.similarity = true)
    (hs : l.Pairwise (fun x y => jsGeB x.similarity y.similarity = true)) :
    (insertSorted a l).Pairwise
      (fun x y => jsGeB x.similarity y.similarity = true) := by
  induction l with
  | nil => simp [insertSorted]
  | cons b rest ih =>
    have hb : isNum b.similarity = true := hl b (List.mem_cons_self b rest)
    have hrest : ∀ x ∈ rest, isNum x.similarity = true :=
      fun x hx => hl x (List.mem_cons_of_mem b hx)
    rcases List.pairwise_cons.mp hs with ⟨hball, hrs⟩
    unfold insertSorted
    by_cases hk : sortKeep a b = true
    · rw [if_pos hk]
      refine List.pairwise_cons.mpr ⟨?_, hs⟩
      intro y hy
      have hab : jsGeB a.similarity b.similarity = true := by
        rw [← sortKeep_eq_jsGeB ha hb]
        exact hk
      rcases List.mem_cons.mp hy with rfl | hy2
      · exact hab
      · exact jsGeB_trans hab (hball y hy2)
    · rw [if_neg hk]
      refine List.pairwise_cons.mpr ⟨?_, ih hrest hrs⟩
      intro y hy
      rcases mem_insertSorted hy with rfl | hy2
      · have hab : jsGeB y.similarity b.similarity = false := by
          rw [← sortKeep_eq_jsGeB ha hb]
          simp only [Bool.not_eq_true] at hk
          exact hk
        exact jsGeB_total ha hb hab
      · exact hball y hy2

theorem sortSimilar_pairwise {l : List SimilarNote}
    (hl : ∀ x ∈ l, isNum x.similarity = true) :
    (sortSimilar l).Pairwise
      (fun x y => jsGeB x.similarity y.similarity = true) := by
  induction l with
  | nil => simp [sortSimilar]
  | cons a rest ih =>
    unfold sortSimilar
    refine insertSorted_pairwise (hl a (List.mem_cons_self a rest)) ?_
      (ih fun x hx => hl x (List.mem_cons_of_mem a hx))
    intro x hx
    exact hl x (List.mem_cons_of_mem a (mem_sortSimilar hx))

/-- Inversion for the result list of `findSimilarNotes`: it is empty (the
bootstrap branch) or the sorted, filtered, truncated scan of the mapping. -/
theorem findSimilarNotes_results {ctx : PluginCtx} {fs : FsState}
    {nowIso : String} {nowMs : Int} {notePath : String} {maxResults : Nat}
    {minSim : ℚ} {rs : List SimilarNote}
    (h : (findSimilarNotes ctx fs nowIso nowMs notePath maxResults minSim).1 =
      Except.ok rs) :
    rs = [] ∨ ∃ ce : EmbeddingData, getEmbedding fs notePath = some ce ∧
      rs = (sortSimilar (collectSimilarities ctx.sqrt minSim notePath
        ce.embedding (getAllEmbeddings fs))).take maxResults := by
  unfold findSimilarNotes at h
  split at h
  · left
    split at h
    · split at h
      · split at h
        · exact (Except.ok.inj h).symm
        · exact (Except.ok.inj h).symm
      · exact (Except.ok.inj h).symm
    · exact (Except.ok.inj h).symm
  · rename_i ce hce
    right
    exact ⟨ce, hce, (Except.ok.inj h).symm⟩

/-- Evaluation of the concrete query run: with the toy square root, the
similarities are `6` for `b.md` and `2` for `c.md`, sorted descending. -/
theorem findSimilarNotes_toy_eval :
    (findSimilarNotes ctxToy fsW "t" 0 "q.md" 5 0).1 = Except.ok resultsW := by
  norm_num [findSimilarNotes, getEmbedding, getAllEmbeddings, loadDatabase, adapterRead,
    jsonParse, fsW, dbW, ctxToy, sqrtToy, dbLookup, collectSimilarities,
    calculateCosineSimilarity, dotProd, sumSq, jsDiv, jsGe, titleOf, splitChars,
    replaceFirstChars, sortSimilar, insertSorted, sortKeep, jsSub, jsPos, resultsW]
  decide

/-! Claim theorems. -/

/-- C7: for every document set and every query key, `findSimilarNotes` never
returns a match whose key equals the query key; the query key is excluded
from the candidate set unconditionally. -/
theorem findSimilarNotes_self_exclusion (ctx : PluginCtx) (fs : FsState)
    (nowIso : String) (nowMs : Int) (notePath : String) (maxResults : Nat)
    (minSimilarity : ℚ) (rs : List SimilarNote) (r : SimilarNote)
    (hrs : (findSimilarNotes ctx fs nowIso nowMs notePath maxResults
      minSimilarity).1 = Except.ok rs)
    (hr : r ∈ rs) : r.path ≠ notePath := by
  rcases findSimilarNotes_results hrs with rfl | ⟨ce, hce, rfl⟩
  · cases hr
  · exact (mem_collectSimilarities
      (mem_sortSimilar (List.take_subset _ _ hr))).1

/-- Witness for C7: in the concrete run on `fsW`, the returned match
`c.md` differs from the query key `q.md`. -/
theorem findSimilarNotes_self_exclusion_witness :
    SimilarNote.path
      { path := "c.md", title := "c", similarity := JSNum.num 2 } ≠ "q.md" :=
  findSimilarNotes_self_exclusion ctxToy fsW "t" 0 "q.md" 5 0 resultsW
    { path := "c.md", title := "c", similarity := JSNum.num 2 }
    findSimilarNotes_toy_eval (by decide)

/-- C8: every result returned by `findSimilarNotes` has
`similarity >= minSimilarity` (in the JS comparison); no candidate strictly
below the threshold is ever returned. -/
theorem findSimilarNotes_threshold (ctx : PluginCtx) (fs : FsState)
    (nowIso : String) (nowMs : Int) (notePath : String) (maxResults : Nat)
    (minSimilarity : ℚ) (rs : List SimilarNote) (r : SimilarNote)
    (hrs : (findSimilarNotes ctx fs nowIso nowMs notePath maxResults
      minSimilarity).1 = Except.ok rs)
    (hr : r ∈ rs) : jsGe r.similarity minSimilarity = true := by
  rcases findSimilarNotes_results hrs with rfl | ⟨ce, hce, rfl⟩
  · cases hr
  · exact (mem_collectSimilarities
      (mem_sortSimilar (List.take_subset _ _ hr))).2.1

/-- Witness for C8: in the concrete run on `fsW`, the result with
similarity `2` passes the threshold `0`. -/
theorem findSimilarNotes_threshold_witness :
    jsGe (JSNum.num 2) 0 = true := by
  have h := findSimilarNotes_threshold ctxToy fsW "t" 0 "q.md" 5 0 resultsW
    { path := "c.md", title := "c", similarity := JSNum.num 2 }
    findSimilarNotes_toy_eval (by decide)
  simpa using h

/-- C9: the sequence returned by `findSimilarNotes` is sorted by similarity
descending: any adjacent pair satisfies
`r[i].similarity >= r[i+1].similarity`.  The hypothesis on `ctx.sqrt` states
the sign property of the host's `Math.sqrt`: on the nonnegative inputs it
receives here it vanishes only at zero. -/
theorem findSimilarNotes_sorted (ctx : PluginCtx) (fs : FsState)
    (nowIso : String) (nowMs : Int) (notePath : String) (maxResults : Nat)
    (minSimilarity : ℚ) (rs : List SimilarNote)
    (hsq : ∀ q : ℚ, 0 ≤ q → ctx.sqrt q = 0 → q = 0)
    (hrs : (findSimilarNotes ctx fs nowIso nowMs notePath maxResults
      minSimilarity).1 = Except.ok rs)
    (i : Nat) (hi : i + 1 < rs.length) :
    jsGeB (rs.get ⟨i, Nat.lt_of_succ_lt hi⟩).similarity
      (rs.get ⟨i + 1, hi⟩).similarity = true := by
  rcases findSimilarNotes_results hrs with rfl | ⟨ce, hce, rfl⟩
  · exact absurd hi (by simp)
  · have hnum : ∀ x ∈ collectSimilarities ctx.sqrt minSimilarity notePath
        ce.embedding (getAllEmbeddings fs), isNum x.similarity = true := by
      intro x hx
      rcases mem_collectSimilarities hx with ⟨_, hge, d, hcos⟩
      cases hxs : x.similarity with
      | num q => rfl
      | nan => rw [hxs] at hge; simp [jsGe] at hge
      | inf b2 => rw [hxs] at hcos; exact absurd hcos (fun hc => cos_ok_not_inf hsq hc)
    have hp := sortSimilar_pairwise hnum
    have hp2 := List.Pairwise.sublist (List.take_sublist maxResults _) hp
    exact List.pairwise_iff_get.mp hp2 ⟨i, Nat.lt_of_succ_lt hi⟩ ⟨i + 1, hi⟩
      (by simp [Fin.lt_def])

/-- Witness for C9: in the concrete run on `fsW` the adjacent pair of
results has similarities `6` and `2`, in descending order. -/
theorem findSimilarNotes_sorted_witness :
    jsGeB (JSNum.num 6) (JSNum.num 2) = true := by
  have hsq : ∀ q : ℚ, 0 ≤ q → ctxToy.sqrt q = 0 → q = 0 := by
    intro q hq h0
    simp only [ctxToy, sqrtToy] at h0
    split at h0
    · exact absurd h0 one_ne_zero
    · linarith
  have h := findSimilarNotes_sorted ctxToy fsW "t" 0 "q.md" 5 0 resultsW hsq
    findSimilarNotes_toy_eval 0 (by decide)
  simpa [resultsW] using h

/-! Helper lemmas about the store. -/

theorem dbLookup_dbInsert_self (db : EmbDb) (k : String) (v : EmbeddingData) :
    dbLookup (dbInsert db k v) k = some v := by
  induction db with
  | nil => simp [dbInsert, dbLookup]
  | cons entry rest ih =>
    obtain ⟨k2, w⟩ := entry
    by_cases h : k2 = k
    · simp [dbInsert, dbLookup, h]
    · simp [dbInsert, dbLookup, h, ih]

theorem dbLookup_dbInsert_ne {k k' : String} (db : EmbDb) (v : EmbeddingData)
    (h : k' ≠ k) : dbLookup (dbInsert db k v) k' = dbLookup db k' := by
  induction db with
  | nil => simp [dbInsert, dbLookup, Ne.symm h]
  | cons entry rest ih =>
    obtain ⟨k2, w⟩ := entry
    by_cases h2 : k2 = k
    · subst h2
      simp [dbInsert, dbLookup, Ne.symm h]
    · simp [dbInsert, dbLookup, h2, ih]

theorem dbLookup_dbErase_ne {k k' : String} (db : EmbDb) (h : k' ≠ k) :
    dbLookup (dbErase db k) k' = dbLookup db k' := by
  induction db with
  | nil => simp [dbErase]
  | cons entry rest ih =>
    obtain ⟨k2, w⟩ := entry
    by_cases h2 : k2 = k
    · subst h2
      simp [dbErase, dbLookup, Ne.symm h]
    · simp [dbErase, dbLookup, h2, ih]

theorem loadDatabase_saveDatabase {fs : FsState} (db : EmbDb)
    (h : fs.readFails = false) : loadDatabase (saveDatabase fs db) = db := by
  simp [loadDatabase, saveDatabase, adapterRead, jsonParse, h]

theorem readFails_of_getEmbedding {fs : FsState} {k : String}
    {r : EmbeddingData} (h : getEmbedding fs k = some r) :
    fs.readFails = false := by
  cases hrf : fs.readFails with
  | false => rfl
  | true => simp [getEmbedding, loadDatabase, adapterRead, hrf, dbLookup] at h

/-- C1 (code bug): the unsynchronised load-modify-save cycle loses an update.
In the interleaving where call A (`a.md`) loads, then call B (`b.md`) loads,
saves, and then A saves its stale snapshot, both calls complete but the
mapping afterwards has A's record and has lost B's record entirely. -/
theorem saveEmbedding_lost_update :
    lostRun.opA.finished = true ∧ lostRun.opB.finished = true ∧
    dbLookup (getAllEmbeddings lostRun.fs) "a.md" =
      some { embedding := [1], last_updated := "t1", file_mtime := 1 } ∧
    dbLookup (getAllEmbeddings lostRun.fs) "b.md" = none := by
  decide

/-- C2 (code bug): `calculateCosineSimilarity` has no zero-norm guard.  For
any square root with `sqrt 0 = 0` (as `Math.sqrt` has), the similarity of the
zero-norm vector `[0, 0]` with `[1, 0]` is the JS value `0 / 0 = NaN`, not a
defined numeric value. -/
theorem calculateCosineSimilarity_zero_norm_nan (sqrt : ℚ → ℚ)
    (h0 : sqrt 0 = 0) :
    calculateCosineSimilarity sqrt [0, 0] [1, 0] = Except.ok JSNum.nan := by
  norm_num [calculateCosineSimilarity, dotProd, sumSq, jsDiv, h0]

/-- Witness for C2: the concrete square root model evaluates the zero-norm
query to `NaN`. -/
theorem calculateCosineSimilarity_zero_norm_nan_witness :
    calculateCosineSimilarity sqrtToy [0, 0] [1, 0] = Except.ok JSNum.nan :=
  calculateCosineSimilarity_zero_norm_nan sqrtToy (by norm_num [sqrtToy])

/-- C3 counterexample: on storage whose reads fail while the durable blob is
intact and non-empty, `loadDatabase` returns the empty mapping instead of
propagating a `StorageError` (its result type has no error channel at all:
the catch block swallows read failures exactly like parse failures). -/
theorem loadDatabase_read_failure_fail_open :
    adapterRead fsBadRead = Except.error StorageErr.ioError ∧
    fsBadRead.file = some (Blob.wellFormed [("a.md", dEntry)]) ∧
    loadDatabase fsBadRead = [] := by
  decide

/-- C3 amended: a corrupt blob is treated as an empty mapping, and a
persistence-layer read failure is likewise treated as an empty mapping (fail
open); `loadDatabase` never propagates a `StorageError`. -/
theorem loadDatabase_fail_open (fs : FsState) :
    (adapterRead fs = Except.ok Blob.corrupt → loadDatabase fs = []) ∧
    (∀ e : StorageErr, adapterRead fs = Except.error e → loadDatabase fs = []) := by
  constructor
  · intro h
    simp [loadDatabase, h, jsonParse]
  · intro e h
    simp [loadDatabase, h]

/-- Witness for C3 amended: concrete corrupt-blob and failing-read stores
both load as the empty mapping. -/
theorem loadDatabase_fail_open_witness :
    loadDatabase fsCorrupt = [] ∧ loadDatabase fsBadRead = [] :=
  ⟨(loadDatabase_fail_open fsCorrupt).1 (by decide),
   (loadDatabase_fail_open fsBadRead).2 StorageErr.ioError (by decide)⟩

/-- C4 counterexample: the query document `q.md` has no stored embedding, the
bootstrap embedding attempt fails (rate-limited provider), yet
`findSimilarNotes` returns `Except.ok []` with the store unchanged — the
failure is silently discarded, not propagated to the caller. -/
theorem findSimilarNotes_bootstrap_failure_swallowed :
    findSimilarNotes ctxFail fsEmpty "t" 0 "q.md" 5 1 =
      (Except.ok [], fsEmpty) := by
  decide

/-- C4 amended: when the query document has no stored embedding and the
bootstrap embedding attempt fails, `findSimilarNotes` catches the error,
returns the empty result list, and leaves the store unchanged; the failure
does not propagate. -/
theorem findSimilarNotes_bootstrap_failure (ctx : PluginCtx) (fs : FsState)
    (nowIso : String) (nowMs : Int) (notePath : String) (file : VFile)
    (maxResults : Nat) (minSimilarity : ℚ) (e : JsError) (n : Nat)
    (hce : getEmbedding fs notePath = none)
    (hv : ctx.vault notePath = some file)
    (hmd : file.extension = "md")
    (hgen : generateEmbedding ctx.embedder file.content = (Except.error e, n)) :
    findSimilarNotes ctx fs nowIso nowMs notePath maxResults minSimilarity =
      (Except.ok [], fs) := by
  unfold findSimilarNotes
  rw [hce, hv]
  dsimp only
  rw [if_pos hmd, hgen]

/-- Witness for C4 amended: the concrete failing-bootstrap run returns the
empty list and the unchanged store. -/
theorem findSimilarNotes_bootstrap_failure_witness :
    findSimilarNotes ctxFail fsEmpty "t" 0 "q.md" 5 1 =
      (Except.ok [], fsEmpty) :=
  findSimilarNotes_bootstrap_failure ctxFail fsEmpty "t" 0 "q.md" fileQ 5 1
    (embMsg ProvErr.rateLimited) 1 (by decide) (by decide) (by decide) (by decide)

/-- C10: `saveEmbedding` for key `k` and `deleteEmbedding` for key `k` leave
the record stored under any other key `k'` unchanged (same embedding,
`last_updated`, and `file_mtime`), with no interleaved mutation. -/
theorem store_frame_property (fs : FsState) (k k' : String)
    (r : EmbeddingData) (emb : List ℚ) (nowIso : String) (mt : Int)
    (hne : k' ≠ k) (h : getEmbedding fs k' = some r) :
    getEmbedding (saveEmbedding fs k emb nowIso mt) k' = some r ∧
    getEmbedding (deleteEmbedding fs k) k' = some r := by
  have hrf : fs.readFails = false := readFails_of_getEmbedding h
  constructor
  · unfold getEmbedding saveEmbedding
    rw [loadDatabase_saveDatabase _ hrf, dbLookup_dbInsert_ne _ _ hne]
    exact h
  · unfold getEmbedding deleteEmbedding
    rw [loadDatabase_saveDatabase _ hrf, dbLookup_dbErase_ne _ hne]
    exact h

/-- Witness for C10: on the concrete store `fsW`, writing `q.md` and deleting
`q.md` both leave the record of `b.md` unchanged. -/
theorem store_frame_property_witness :
    getEmbedding (saveEmbedding fsW "q.md" [9] "t9" 9) "b.md" =
      some { embedding := [3, 0], last_updated := "t1", file_mtime := 5 } ∧
    getEmbedding (deleteEmbedding fsW "q.md") "b.md" =
      some { embedding := [3, 0], last_updated := "t1", file_mtime := 5 } :=
  store_frame_property fsW "q.md" "b.md"
    { embedding := [3, 0], last_updated := "t1", file_mtime := 5 }
    [9] "t9" 9 (by decide) (by decide)

/-! Claims about the indexing coordinator. -/

theorem generateEmbedding_ok {em : EmbedderState} {text : String}
    {emb : List ℚ} (hconf : em.configured = true)
    (hblank : jsIsBlank text = false)
    (hprov : em.provider (jsSlice text 8000) = Except.ok emb) :
    generateEmbedding em text = (Except.ok emb, 1) := by
  simp [generateEmbedding, hconf, hblank, hprov]

theorem generateEmbedding_error {em : EmbedderState} {text : String}
    {perr : ProvErr} (hconf : em.configured = true)
    (hblank : jsIsBlank text = false)
    (hprov : em.provider (jsSlice text 8000) = Except.error perr) :
    generateEmbedding em text = (Except.error (embMsg perr), 1) := by
  simp [generateEmbedding, hconf, hblank, hprov]

/-- C5: with `force = false` and a stored record at least as new as the
document (`record.file_mtime >= file.mtime`), `updateNoteEmbedding` returns
`false` (Skipped) with no provider call and no write; and starting from an
absent or stale record on healthy storage with a succeeding provider, calling
it twice with an unchanged document makes the first call Update (one provider
call, one write) and the second call Skip (no provider call, no write) —
exactly one provider call in total. -/
theorem updateNoteEmbedding_skip_idempotent (ctx : PluginCtx)
    (nowIso now2 : String) (filePath : String) :
    (∀ (fs : FsState) (file : VFile) (ed : EmbeddingData),
      ctx.vault filePath = some file →
      getEmbedding fs filePath = some ed →
      file.mtime ≤ ed.file_mtime →
      updateNoteEmbedding ctx fs nowIso filePath false =
        (Except.ok false, fs, 0)) ∧
    (∀ (fs : FsState) (file : VFile) (emb : List ℚ),
      ctx.vault filePath = some file →
      (∀ ed, getEmbedding fs filePath = some ed → ed.file_mtime < file.mtime) →
      ctx.embedder.configured = true →
      jsIsBlank file.content = false →
      ctx.embedder.provider (jsSlice file.content 8000) = Except.ok emb →
      fs.readFails = false →
      updateNoteEmbedding ctx fs nowIso filePath false =
        (Except.ok true, saveEmbedding fs filePath emb nowIso file.mtime, 1) ∧
      updateNoteEmbedding ctx (saveEmbedding fs filePath emb nowIso file.mtime)
        now2 filePath false =
        (Except.ok false, saveEmbedding fs filePath emb nowIso file.mtime, 0) ∧
      (updateNoteEmbedding ctx fs nowIso filePath false).2.2 +
        (updateNoteEmbedding ctx
          (updateNoteEmbedding ctx fs nowIso filePath false).2.1
          now2 filePath false).2.2 = 1) := by
  constructor
  · intro fs file ed hv hed hle
    simp [updateNoteEmbedding, hv, hed, hle]
  · intro fs file emb hv hstale hconf hblank hprov hrf
    have hgen := generateEmbedding_ok hconf hblank hprov
    have hrun1 : updateNoteEmbedding ctx fs nowIso filePath false =
        (Except.ok true, saveEmbedding fs filePath emb nowIso file.mtime, 1) := by
      rcases hed : getEmbedding fs filePath with _ | ed
      · simp [updateNoteEmbedding, hv, hed, hgen]
      · have hnle : ¬(file.mtime ≤ ed.file_mtime) := not_le.mpr (hstale ed hed)
        simp [updateNoteEmbedding, hv, hed, hgen, hnle]
    have hed2 : getEmbedding (saveEmbedding fs filePath emb nowIso file.mtime)
        filePath =
        some { embedding := emb, last_updated := nowIso,
               file_mtime := file.mtime } := by
      unfold getEmbedding saveEmbedding
      rw [loadDatabase_saveDatabase _ hrf]
      exact dbLookup_dbInsert_self _ _ _
    have hrun2 : updateNoteEmbedding ctx
        (saveEmbedding fs filePath emb nowIso file.mtime) now2 filePath false =
        (Except.ok false, saveEmbedding fs filePath emb nowIso file.mtime, 0) := by
      simp [updateNoteEmbedding, hv, hed2]
    refine ⟨hrun1, hrun2, ?_⟩
    rw [hrun1]
    dsimp only
    rw [hrun2]
    rfl

/-- Witness for C5: on the concrete store with a current record the call is
skipped with no provider call and no write, and the fresh-index-then-reindex
pair on the empty store updates once, then skips, for exactly one provider
call. -/
theorem updateNoteEmbedding_skip_idempotent_witness :
    updateNoteEmbedding ctxToy fsQcur "t" "q.md" false =
      (Except.ok false, fsQcur, 0) ∧
    updateNoteEmbedding ctxToy fsEmpty "t1" "q.md" false =
      (Except.ok true, saveEmbedding fsEmpty "q.md" [1, 0] "t1" 100, 1) ∧
    (updateNoteEmbedding ctxToy fsEmpty "t1" "q.md" false).2.2 +
      (updateNoteEmbedding ctxToy
        (updateNoteEmbedding ctxToy fsEmpty "t1" "q.md" false).2.1
        "t2" "q.md" false).2.2 = 1 :=
  ⟨(updateNoteEmbedding_skip_idempotent ctxToy "t" "t2" "q.md").1 fsQcur fileQ
      { embedding := [1, 0], last_updated := "t", file_mtime := 100 }
      (by decide) (by decide) (by decide),
   ((updateNoteEmbedding_skip_idempotent ctxToy "t1" "t2" "q.md").2 fsEmpty fileQ
      [1, 0] (by decide)
      (by
        intro ed hed
        have h0 : getEmbedding fsEmpty "q.md" = none := by decide
        rw [h0] at hed
        cases hed)
      (by decide) (by decide) (by decide) (by decide)).1,
   ((updateNoteEmbedding_skip_idempotent ctxToy "t1" "t2" "q.md").2 fsEmpty fileQ
      [1, 0] (by decide)
      (by
        intro ed hed
        have h0 : getEmbedding fsEmpty "q.md" = none := by decide
        rw [h0] at hed
        cases hed)
      (by decide) (by decide) (by decide) (by decide)).2.2⟩

/-- C6 counterexample: a provider-call failure whose typed message contains
the configuration substring is swallowed by the catch block of
`updateNoteEmbedding` — the call returns `false` (Skipped) instead of
propagating the typed error, refuting the universal propagation claim.  (The
store is still left unchanged.) -/
theorem updateNoteEmbedding_provider_failure_swallowed :
    updateNoteEmbedding ctxSneaky fsW "t" "q.md" true =
      (Except.ok false, fsW, 1) := by
  decide

/-- C6 amended: when the provider call itself fails during
`updateNoteEmbedding`, the store mapping is left exactly as it was, and the
typed error propagates to the caller unless its message contains
`'API key not configured'`, in which case the catch block swallows it and the
call returns `false`. -/
theorem updateNoteEmbedding_provider_failure_outcome (ctx : PluginCtx)
    (fs : FsState) (nowIso : String) (filePath : String) (file : VFile)
    (force : Bool) (perr : ProvErr)
    (hv : ctx.vault filePath = some file)
    (hreach : force = true ∨
      ∀ ed, getEmbedding fs filePath = some ed → ed.file_mtime < file.mtime)
    (hconf : ctx.embedder.configured = true)
    (hblank : jsIsBlank file.content = false)
    (hprov : ctx.embedder.provider (jsSlice file.content 8000) =
      Except.error perr) :
    updateNoteEmbedding ctx fs nowIso filePath force =
      (if containsSubstr (embMsg perr) ("API key not configured")
        then Except.ok false
        else Except.error (embMsg perr), fs, 1) := by
  have hgen := generateEmbedding_error hconf hblank hprov
  cases hc : containsSubstr (embMsg perr) ("API key not configured") with
  | true =>
    cases force with
    | true => simp [updateNoteEmbedding, hv, hgen, hc]
    | false =>
      rcases hreach with hf | hstale
      · simp at hf
      · rcases hed : getEmbedding fs filePath with _ | ed
        · simp [updateNoteEmbedding, hv, hed, hgen, hc]
        · have hnle : ¬(file.mtime ≤ ed.file_mtime) := not_le.mpr (hstale ed hed)
          simp [updateNoteEmbedding, hv, hed, hgen, hc, hnle]
  | false =>
    cases force with
    | true => simp [updateNoteEmbedding, hv, hgen, hc]
    | false =>
      rcases hreach with hf | hstale
      · simp at hf
      · rcases hed : getEmbedding fs filePath with _ | ed
        · simp [updateNoteEmbedding, hv, hed, hgen, hc]
        · have hnle : ¬(file.mtime ≤ ed.file_mtime) := not_le.mpr (hstale ed hed)
          simp [updateNoteEmbedding, hv, hed, hgen, hc, hnle]

/-- Witness for C6 amended: a rate-limited provider makes the concrete forced
re-index fail with the typed rate-limit message (which does not contain the
swallowed substring) and leave `fsW` unchanged. -/
theorem updateNoteEmbedding_provider_failure_outcome_witness :
    updateNoteEmbedding ctxFail fsW "t" "q.md" true =
      (Except.error (embMsg ProvErr.rateLimited), fsW, 1) := by
  have h := updateNoteEmbedding_provider_failure_outcome ctxFail fsW "t" "q.md"
    fileQ true ProvErr.rateLimited (by decide) (Or.inl rfl) (by decide)
    (by decide) (by decide)
  rw [h]
  decide
